import Mathlib

/-!
Shallow embedding of the bracket-order lifecycle controller implemented in
Algorithm.Python/MeanReversionSpyRsiKr.py.

The controller's mutable tracking fields (entry_price and the two order
ticket references) become the record TrackingState.  The host platform
(portfolio accounting, indicator values, the order gateway's ticket
results) is passed in explicitly as an environment record, and every
outbound request the controller makes (order submissions, cancellations,
liquidations) is returned as an explicit list of Effect values, in the
order the source code issues them.  Prices are rationals; quantities are
integers; order identifiers are naturals.
-/

namespace MeanReversionSpyRsiKr

/-- Tradable symbols.  The algorithm only ever trades SPY; other symbols
exist so that the symbol guard in OnOrderEvent is non-vacuous. -/
inductive Sym where
  | SPY
  | Other
  deriving DecidableEq, Repr

/-- Order direction, as in QuantConnect's OrderDirection. -/
inductive OrderDirection where
  | Buy
  | Sell
  deriving DecidableEq, Repr

/-- Order type, as in QuantConnect's OrderType (the three kinds the
algorithm uses). -/
inductive OrderType where
  | Market
  | StopMarket
  | Limit
  deriving DecidableEq, Repr

/-- Order status, as in QuantConnect's OrderStatus (the statuses the
algorithm inspects, plus Submitted as the initial live status). -/
inductive OrderStatus where
  | Submitted
  | Filled
  | Canceled
  | CancelPending
  | Invalid
  | Error
  deriving DecidableEq, Repr

/-- Statuses for which ticket.Status.IsActive() holds: the order is still
live (not filled, canceled or rejected). -/
def OrderStatus.isActive : OrderStatus → Bool
  | .Submitted => true
  | .CancelPending => true
  | _ => false

/-- An order ticket handle returned by the gateway: the order id used for
event correlation and cancellation, plus the ticket's current status. -/
structure OrderTicket where
  orderId : Nat
  status : OrderStatus
  deriving DecidableEq, Repr

/-- The order record behind an event, as returned by
Transactions.GetOrderById(orderEvent.OrderId). -/
structure Order where
  symbol : Sym
  type : OrderType
  direction : OrderDirection
  deriving DecidableEq, Repr

/-- An order event notification from the gateway. -/
structure OrderEvent where
  orderId : Nat
  status : OrderStatus
  fillPrice : ℚ
  absoluteFillQuantity : ℤ
  deriving DecidableEq, Repr

/-- The SPY holding of the portfolio: a signed quantity. -/
structure PortfolioState where
  spyQuantity : ℤ
  deriving DecidableEq, Repr

/-- Portfolio[SPY].Invested: a nonzero holding. -/
def PortfolioState.Invested (p : PortfolioState) : Prop := p.spyQuantity ≠ 0

/-- Portfolio[SPY].IsLong: a positive holding. -/
def PortfolioState.IsLong (p : PortfolioState) : Prop := 0 < p.spyQuantity

/-- Portfolio[SPY].IsShort: a negative holding. -/
def PortfolioState.IsShort (p : PortfolioState) : Prop := p.spyQuantity < 0

instance (p : PortfolioState) : Decidable p.Invested := by
  unfold PortfolioState.Invested; infer_instance

instance (p : PortfolioState) : Decidable p.IsLong := by
  unfold PortfolioState.IsLong; infer_instance

instance (p : PortfolioState) : Decidable p.IsShort := by
  unfold PortfolioState.IsShort; infer_instance

/-- The algorithm's mutable trade-tracking fields set in Initialize:
self.entry_price, self.stop_loss_order_ticket,
self.profit_target_order_ticket. -/
structure TrackingState where
  entry_price : ℚ
  stop_loss_order_ticket : Option OrderTicket
  profit_target_order_ticket : Option OrderTicket
  deriving DecidableEq, Repr

/-- An outbound request from the algorithm to the host platform, recorded
in the order the source issues it. -/
inductive Effect where
  | marketOrder (symbol : Sym) (quantity : ℤ)
  | stopMarketOrder (symbol : Sym) (quantity : ℤ) (stopPrice : ℚ) (tag : String)
  | limitOrder (symbol : Sym) (quantity : ℤ) (limitPrice : ℚ) (tag : String)
  | cancel (orderId : Nat) (tag : String)
  | liquidate (symbol : Sym) (tag : String)
  deriving DecidableEq, Repr

/-- True when the effect is an order submission (market, stop-market or
limit) rather than a cancellation or liquidation request. -/
def Effect.isSubmission : Effect → Bool
  | .marketOrder _ _ => true
  | .stopMarketOrder _ _ _ _ => true
  | .limitOrder _ _ _ _ => true
  | _ => false

/-- True when the effect is a cancellation request. -/
def Effect.isCancel : Effect → Bool
  | .cancel _ _ => true
  | _ => false

/-- True when the effect is a liquidation request for the symbol. -/
def Effect.isLiquidation : Effect → Bool
  | .liquidate _ _ => true
  | _ => false

/-- The strategy parameter self.atr_stop_multiplier = 1.5. -/
def atr_stop_multiplier : ℚ := 1.5

/-- The strategy parameter self.atr_profit_multiplier = 3.0. -/
def atr_profit_multiplier : ℚ := 3.0

/-- The strategy parameter self.rsi_oversold = 30. -/
def rsi_oversold : ℚ := 30

/-- The strategy parameter self.rsi_overbought = 70. -/
def rsi_overbought : ℚ := 70

/-- The strategy parameter self.rsi_exit_level = 50. -/
def rsi_exit_level : ℚ := 50

/-- ResetTradeTracking: clears the entry price and both ticket
references. -/
def ResetTradeTracking (s : TrackingState) : TrackingState :=
  { s with
    entry_price := 0
    stop_loss_order_ticket := none
    profit_target_order_ticket := none }

/-- The guard pattern `ticket is not None and orderEvent.OrderId ==
ticket.OrderId` used throughout OnOrderEvent. -/
def ticketMatches (t? : Option OrderTicket) (e : OrderEvent) : Bool :=
  match t? with
  | some t => e.orderId == t.orderId
  | none => false

/-- The pattern `if ticket is not None: ticket.Cancel(tag)` used in the
bracket-fill branches of OnOrderEvent. -/
def cancelIfPresent (t? : Option OrderTicket) (tag : String) : List Effect :=
  match t? with
  | some t => [Effect.cancel t.orderId tag]
  | none => []

/-- Host-supplied inputs read by OnOrderEvent: the current portfolio
holding, the ATR indicator's readiness and value, and the tickets the
gateway returns for the StopMarketOrder and LimitOrder submissions
(none models a failed submission that produced no valid ticket). -/
structure BrokerEnv where
  portfolio : PortfolioState
  atrIsReady : Bool
  atrValue : ℚ
  stopTicketResult : Option OrderTicket
  targetTicketResult : Option OrderTicket

/-- PlaceStopLossAndProfitTarget(direction, quantity, entry_price,
current_atr): derives the stop and target prices, submits both bracket
orders (recording the gateway's ticket results), and on a failed
submission of either leg requests liquidation and resets tracking. -/
def PlaceStopLossAndProfitTarget (env : BrokerEnv) (s : TrackingState)
    (direction : OrderDirection) (quantity : ℤ) (entry_price current_atr : ℚ) :
    TrackingState × List Effect :=
  if current_atr ≤ 0 then
    (s, [Effect.liquidate Sym.SPY "Invalid ATR for SL/PT"])
  else
    let close_quantity : ℤ :=
      if direction = OrderDirection.Buy then -quantity else quantity
    let stop_price : ℚ :=
      if direction = OrderDirection.Buy then
        entry_price - atr_stop_multiplier * current_atr
      else
        entry_price + atr_stop_multiplier * current_atr
    let target_price : ℚ :=
      if direction = OrderDirection.Buy then
        entry_price + atr_profit_multiplier * current_atr
      else
        entry_price - atr_profit_multiplier * current_atr
    let s1 : TrackingState :=
      { s with
        stop_loss_order_ticket := env.stopTicketResult
        profit_target_order_ticket := env.targetTicketResult }
    let effs : List Effect :=
      [Effect.stopMarketOrder Sym.SPY close_quantity stop_price "ATR SL",
       Effect.limitOrder Sym.SPY close_quantity target_price "ATR PT"]
    if s1.stop_loss_order_ticket = none ∨ s1.profit_target_order_ticket = none then
      (ResetTradeTracking s1, effs ++ [Effect.liquidate Sym.SPY "SL/PT Creation Failed"])
    else
      (s1, effs)

/-- OnOrderEvent(orderEvent): the reconciliation core.  `order` is the
record Transactions.GetOrderById returns for the event's order id. -/
def OnOrderEvent (env : BrokerEnv) (s : TrackingState) (order : Order)
    (e : OrderEvent) : TrackingState × List Effect :=
  if e.status = OrderStatus.Filled then
    if order.symbol = Sym.SPY ∧ order.type = OrderType.Market ∧
       s.stop_loss_order_ticket = none ∧ s.profit_target_order_ticket = none then
      if (order.direction = OrderDirection.Buy ∧ env.portfolio.IsLong) ∨
         (order.direction = OrderDirection.Sell ∧ env.portfolio.IsShort) then
        let s1 := { s with entry_price := e.fillPrice }
        if env.atrIsReady then
          PlaceStopLossAndProfitTarget env s1 order.direction
            e.absoluteFillQuantity s1.entry_price env.atrValue
        else
          (s1, [Effect.liquidate Sym.SPY "ATR Not Ready on Fill"])
      else
        (s, [])
    else if ticketMatches s.stop_loss_order_ticket e then
      (ResetTradeTracking s, cancelIfPresent s.profit_target_order_ticket "Stop Loss Hit")
    else if ticketMatches s.profit_target_order_ticket e then
      (ResetTradeTracking s, cancelIfPresent s.stop_loss_order_ticket "Profit Target Hit")
    else
      (s, [])
  else if e.status = OrderStatus.Canceled then
    let s1 :=
      if ticketMatches s.stop_loss_order_ticket e then
        { s with stop_loss_order_ticket := none }
      else s
    let s2 :=
      if ticketMatches s1.profit_target_order_ticket e then
        { s1 with profit_target_order_ticket := none }
      else s1
    (if ¬ env.portfolio.Invested then ResetTradeTracking s2 else s2, [])
  else if e.status = OrderStatus.Invalid ∨ e.status = OrderStatus.CancelPending ∨
          e.status = OrderStatus.Error then
    if order.type = OrderType.Market ∧ ¬ env.portfolio.Invested then
      (ResetTradeTracking s, [])
    else
      (s, [])
  else
    (s, [])

/-- CancelStopLossAndProfitTarget: cancels whichever bracket tickets are
still active, then resets tracking. -/
def CancelStopLossAndProfitTarget (s : TrackingState) : TrackingState × List Effect :=
  let e1 : List Effect :=
    match s.stop_loss_order_ticket with
    | some t =>
        if t.status.isActive then [Effect.cancel t.orderId "Position Closed Manually"]
        else []
    | none => []
  let e2 : List Effect :=
    match s.profit_target_order_ticket with
    | some t =>
        if t.status.isActive then [Effect.cancel t.orderId "Position Closed Manually"]
        else []
    | none => []
  (ResetTradeTracking s, e1 ++ e2)

/-- Host-supplied inputs read by OnData: warm-up flag, data availability,
indicator readiness and current values, the bar's close price, the
portfolio holding, and the results of CalculateOrderQuantity for the
long (+0.95) and short (-0.95) allocations. -/
structure DataEnv where
  isWarmingUp : Bool
  hasSpyData : Bool
  rsiIsReady : Bool
  atrIsReady : Bool
  krIsReady : Bool
  rsiValue : ℚ
  atrValue : ℚ
  krValue : ℚ
  spyClose : ℚ
  portfolio : PortfolioState
  longQuantity : ℤ
  shortQuantity : ℤ

/-- OnData(data): the evaluation tick.  Entry signals are evaluated only
when the portfolio is not invested; exit signals only when invested. -/
def OnData (env : DataEnv) (s : TrackingState) : TrackingState × List Effect :=
  if env.isWarmingUp then (s, [])
  else if ¬ env.hasSpyData then (s, [])
  else if ¬ (env.rsiIsReady ∧ env.atrIsReady ∧ env.krIsReady) then (s, [])
  else if ¬ env.portfolio.Invested then
    if env.rsiValue < rsi_oversold ∧ env.spyClose < env.krValue then
      if env.longQuantity ≠ 0 then (s, [Effect.marketOrder Sym.SPY env.longQuantity])
      else (s, [])
    else if env.rsiValue > rsi_overbought ∧ env.spyClose > env.krValue then
      if env.shortQuantity ≠ 0 then (s, [Effect.marketOrder Sym.SPY env.shortQuantity])
      else (s, [])
    else (s, [])
  else
    if env.portfolio.IsLong ∧ env.rsiValue > rsi_exit_level then
      let r := CancelStopLossAndProfitTarget s
      (r.1, Effect.liquidate Sym.SPY "RSI Exit" :: r.2)
    else if env.portfolio.IsShort ∧ env.rsiValue < rsi_exit_level then
      let r := CancelStopLossAndProfitTarget s
      (r.1, Effect.liquidate Sym.SPY "RSI Exit" :: r.2)
    else (s, [])

/-- Derived controller state FLAT from the spec's table: flat holding and
both ticket references absent. -/
def IsFLAT (p : PortfolioState) (s : TrackingState) : Prop :=
  p.spyQuantity = 0 ∧ s.stop_loss_order_ticket = none ∧
    s.profit_target_order_ticket = none

/-- Derived controller state OPEN_BRACKETED from the spec's table: an
open holding with both ticket references present. -/
def IsOPEN_BRACKETED (p : PortfolioState) (s : TrackingState) : Prop :=
  p.spyQuantity ≠ 0 ∧ s.stop_loss_order_ticket ≠ none ∧
    s.profit_target_order_ticket ≠ none

/-- Reset completeness of a tracking state: zero entry price and both
ticket references absent. -/
def ResetComplete (s : TrackingState) : Prop :=
  s.entry_price = 0 ∧ s.stop_loss_order_ticket = none ∧
    s.profit_target_order_ticket = none

end MeanReversionSpyRsiKr

namespace MeanReversionSpyRsiKr

/-- PlaceStopLossAndProfitTarget on a long entry with a positive ATR and
both gateway submissions succeeding. -/
theorem place_buy_ok (env : BrokerEnv) (s : TrackingState) (q : ℤ) (E A : ℚ)
    (hA : 0 < A) (tS tT : OrderTicket)
    (hrs : env.stopTicketResult = some tS) (hrt : env.targetTicketResult = some tT) :
    PlaceStopLossAndProfitTarget env s OrderDirection.Buy q E A =
      ({ s with stop_loss_order_ticket := some tS,
                profit_target_order_ticket := some tT },
       [Effect.stopMarketOrder Sym.SPY (-q) (E - atr_stop_multiplier * A) "ATR SL",
        Effect.limitOrder Sym.SPY (-q) (E + atr_profit_multiplier * A) "ATR PT"]) := by
  unfold PlaceStopLossAndProfitTarget
  rw [if_neg (not_le.mpr hA)]
  simp [hrs, hrt]

/-- PlaceStopLossAndProfitTarget on a short entry with a positive ATR and
both gateway submissions succeeding. -/
theorem place_sell_ok (env : BrokerEnv) (s : TrackingState) (q : ℤ) (E A : ℚ)
    (hA : 0 < A) (tS tT : OrderTicket)
    (hrs : env.stopTicketResult = some tS) (hrt : env.targetTicketResult = some tT) :
    PlaceStopLossAndProfitTarget env s OrderDirection.Sell q E A =
      ({ s with stop_loss_order_ticket := some tS,
                profit_target_order_ticket := some tT },
       [Effect.stopMarketOrder Sym.SPY q (E + atr_stop_multiplier * A) "ATR SL",
        Effect.limitOrder Sym.SPY q (E - atr_profit_multiplier * A) "ATR PT"]) := by
  unfold PlaceStopLossAndProfitTarget
  rw [if_neg (not_le.mpr hA)]
  simp [hrs, hrt]

/-- PlaceStopLossAndProfitTarget with a non-positive ATR: liquidation
only, no tracking change. -/
theorem place_nonpos_atr (env : BrokerEnv) (s : TrackingState)
    (d : OrderDirection) (q : ℤ) (E A : ℚ) (hA : A ≤ 0) :
    PlaceStopLossAndProfitTarget env s d q E A =
      (s, [Effect.liquidate Sym.SPY "Invalid ATR for SL/PT"]) := by
  unfold PlaceStopLossAndProfitTarget
  rw [if_pos hA]

/-- PlaceStopLossAndProfitTarget when at least one gateway submission
returns no ticket: both submissions are attempted, then liquidation is
requested and tracking is reset. -/
theorem place_fail (env : BrokerEnv) (s : TrackingState)
    (d : OrderDirection) (q : ℤ) (E A : ℚ) (hA : 0 < A)
    (hfail : env.stopTicketResult = none ∨ env.targetTicketResult = none) :
    (PlaceStopLossAndProfitTarget env s d q E A).1 = ResetTradeTracking s ∧
    ∃ sp tp cq, (PlaceStopLossAndProfitTarget env s d q E A).2 =
      [Effect.stopMarketOrder Sym.SPY cq sp "ATR SL",
       Effect.limitOrder Sym.SPY cq tp "ATR PT",
       Effect.liquidate Sym.SPY "SL/PT Creation Failed"] := by
  unfold PlaceStopLossAndProfitTarget
  rw [if_neg (not_le.mpr hA)]
  simp only []
  rw [if_pos]
  · constructor
    · simp [ResetTradeTracking]
    · exact ⟨_, _, _, rfl⟩
  · simpa using hfail

/-- OnOrderEvent on an entry fill reduces to PlaceStopLossAndProfitTarget
when the entry guard holds and the ATR indicator is ready. -/
theorem onOrderEvent_entry (env : BrokerEnv) (s : TrackingState) (o : Order)
    (e : OrderEvent)
    (hstatus : e.status = OrderStatus.Filled)
    (hsym : o.symbol = Sym.SPY) (htype : o.type = OrderType.Market)
    (hstop : s.stop_loss_order_ticket = none)
    (htgt : s.profit_target_order_ticket = none)
    (hdir : (o.direction = OrderDirection.Buy ∧ env.portfolio.IsLong) ∨
            (o.direction = OrderDirection.Sell ∧ env.portfolio.IsShort))
    (hready : env.atrIsReady = true) :
    OnOrderEvent env s o e =
      PlaceStopLossAndProfitTarget env { s with entry_price := e.fillPrice }
        o.direction e.absoluteFillQuantity e.fillPrice env.atrValue := by
  unfold OnOrderEvent
  rw [if_pos hstatus, if_pos ⟨hsym, htype, hstop, htgt⟩, if_pos hdir, if_pos hready]

/-- OnOrderEvent on an entry fill when the ATR indicator is not ready:
liquidation only, entry price recorded. -/
theorem onOrderEvent_entry_atr_not_ready (env : BrokerEnv) (s : TrackingState)
    (o : Order) (e : OrderEvent)
    (hstatus : e.status = OrderStatus.Filled)
    (hsym : o.symbol = Sym.SPY) (htype : o.type = OrderType.Market)
    (hstop : s.stop_loss_order_ticket = none)
    (htgt : s.profit_target_order_ticket = none)
    (hdir : (o.direction = OrderDirection.Buy ∧ env.portfolio.IsLong) ∨
            (o.direction = OrderDirection.Sell ∧ env.portfolio.IsShort))
    (hready : env.atrIsReady = false) :
    OnOrderEvent env s o e =
      ({ s with entry_price := e.fillPrice },
       [Effect.liquidate Sym.SPY "ATR Not Ready on Fill"]) := by
  unfold OnOrderEvent
  rw [if_pos hstatus, if_pos ⟨hsym, htype, hstop, htgt⟩, if_pos hdir]
  rw [hready]
  simp

end MeanReversionSpyRsiKr


namespace MeanReversionSpyRsiKr

/-- Claim C6: for every entry fill with entry price E and positive risk
unit A, with the algorithm's stop multiple 1.5 and target multiple 3.0, a
long entry submits a stop order at E - 1.5 A and a limit order at
E + 3.0 A, a short entry submits a stop order at E + 1.5 A and a limit
order at E - 3.0 A, and afterwards the derived state is OPEN_BRACKETED. -/
theorem C6_bracket_price_derivation (env : BrokerEnv) (s : TrackingState)
    (o : Order) (e : OrderEvent) (E A : ℚ) (tS tT : OrderTicket)
    (hstatus : e.status = OrderStatus.Filled)
    (hsym : o.symbol = Sym.SPY) (htype : o.type = OrderType.Market)
    (hstop : s.stop_loss_order_ticket = none)
    (htgt : s.profit_target_order_ticket = none)
    (hdir : (o.direction = OrderDirection.Buy ∧ env.portfolio.IsLong) ∨
            (o.direction = OrderDirection.Sell ∧ env.portfolio.IsShort))
    (hready : env.atrIsReady = true)
    (hE : e.fillPrice = E) (hA : env.atrValue = A) (hApos : 0 < A)
    (hrs : env.stopTicketResult = some tS)
    (hrt : env.targetTicketResult = some tT) :
    (o.direction = OrderDirection.Buy →
      (OnOrderEvent env s o e).2 =
        [Effect.stopMarketOrder Sym.SPY (-e.absoluteFillQuantity) (E - 1.5 * A) "ATR SL",
         Effect.limitOrder Sym.SPY (-e.absoluteFillQuantity) (E + 3.0 * A) "ATR PT"]) ∧
    (o.direction = OrderDirection.Sell →
      (OnOrderEvent env s o e).2 =
        [Effect.stopMarketOrder Sym.SPY e.absoluteFillQuantity (E + 1.5 * A) "ATR SL",
         Effect.limitOrder Sym.SPY e.absoluteFillQuantity (E - 3.0 * A) "ATR PT"]) ∧
    (OnOrderEvent env s o e).1 =
      { entry_price := E, stop_loss_order_ticket := some tS,
        profit_target_order_ticket := some tT } ∧
    IsOPEN_BRACKETED env.portfolio (OnOrderEvent env s o e).1 := by
  rw [onOrderEvent_entry env s o e hstatus hsym htype hstop htgt hdir hready, hE, hA]
  have hinv : env.portfolio.spyQuantity ≠ 0 := by
    rcases hdir with ⟨_, h⟩ | ⟨_, h⟩
    · exact ne_of_gt h
    · exact ne_of_lt h
  rcases hdir with ⟨hd, _⟩ | ⟨hd, _⟩
  · rw [hd, place_buy_ok env _ _ E A hApos tS tT hrs hrt]
    refine ⟨fun _ => ?_, fun hcon => absurd hcon (by decide), ?_, hinv, ?_, ?_⟩
    · norm_num [atr_stop_multiplier, atr_profit_multiplier]
    · simp
    · simp
    · simp
  · rw [hd, place_sell_ok env _ _ E A hApos tS tT hrs hrt]
    refine ⟨fun hcon => absurd hcon (by decide), fun _ => ?_, ?_, hinv, ?_, ?_⟩
    · norm_num [atr_stop_multiplier, atr_profit_multiplier]
    · simp
    · simp
    · simp

/-- Witness for C6: the spec's Scenario A, a long fill at 100 with ATR 2,
yields a stop at 97.0 and a target at 106.0 and an OPEN_BRACKETED state. -/
theorem C6_bracket_price_derivation_witness :
    (OnOrderEvent ⟨⟨10⟩, true, 2, some ⟨2, OrderStatus.Submitted⟩,
        some ⟨3, OrderStatus.Submitted⟩⟩ ⟨0, none, none⟩
        ⟨Sym.SPY, OrderType.Market, OrderDirection.Buy⟩
        ⟨1, OrderStatus.Filled, 100, 10⟩).2 =
      [Effect.stopMarketOrder Sym.SPY (-10) 97 "ATR SL",
       Effect.limitOrder Sym.SPY (-10) 106 "ATR PT"] ∧
    IsOPEN_BRACKETED ⟨10⟩
      (OnOrderEvent ⟨⟨10⟩, true, 2, some ⟨2, OrderStatus.Submitted⟩,
        some ⟨3, OrderStatus.Submitted⟩⟩ ⟨0, none, none⟩
        ⟨Sym.SPY, OrderType.Market, OrderDirection.Buy⟩
        ⟨1, OrderStatus.Filled, 100, 10⟩).1 := by
  have h := C6_bracket_price_derivation
    ⟨⟨10⟩, true, 2, some ⟨2, OrderStatus.Submitted⟩, some ⟨3, OrderStatus.Submitted⟩⟩
    ⟨0, none, none⟩ ⟨Sym.SPY, OrderType.Market, OrderDirection.Buy⟩
    ⟨1, OrderStatus.Filled, 100, 10⟩ 100 2
    ⟨2, OrderStatus.Submitted⟩ ⟨3, OrderStatus.Submitted⟩
    rfl rfl rfl rfl rfl (Or.inl ⟨rfl, by norm_num [PortfolioState.IsLong]⟩)
    rfl rfl rfl (by norm_num) rfl rfl
  refine ⟨?_, h.2.2.2⟩
  have h1 := h.1 rfl
  rw [h1]
  norm_num

end MeanReversionSpyRsiKr

namespace MeanReversionSpyRsiKr

/-- Claim C7: on every entry fill with the ATR ready and positive, both
bracket orders are submitted with quantity equal to the fill event's
absolute filled quantity, sign-inverted for a Buy entry and positive for
a Sell entry; and the handler's result does not depend on the current
portfolio holding beyond the direction-match guard (the quantity is read
from the fill event, never from the portfolio). -/
theorem C7_closing_order_quantity (env : BrokerEnv) (s : TrackingState)
    (o : Order) (e : OrderEvent)
    (hstatus : e.status = OrderStatus.Filled)
    (hsym : o.symbol = Sym.SPY) (htype : o.type = OrderType.Market)
    (hstop : s.stop_loss_order_ticket = none)
    (htgt : s.profit_target_order_ticket = none)
    (hdir : (o.direction = OrderDirection.Buy ∧ env.portfolio.IsLong) ∨
            (o.direction = OrderDirection.Sell ∧ env.portfolio.IsShort))
    (hready : env.atrIsReady = true) (hApos : 0 < env.atrValue) :
    (∃ sp tp rest,
      (OnOrderEvent env s o e).2 =
        Effect.stopMarketOrder Sym.SPY
            (if o.direction = OrderDirection.Buy then -e.absoluteFillQuantity
             else e.absoluteFillQuantity) sp "ATR SL" ::
        Effect.limitOrder Sym.SPY
            (if o.direction = OrderDirection.Buy then -e.absoluteFillQuantity
             else e.absoluteFillQuantity) tp "ATR PT" :: rest) ∧
    (∀ p2 : PortfolioState,
      ((o.direction = OrderDirection.Buy ∧ p2.IsLong) ∨
       (o.direction = OrderDirection.Sell ∧ p2.IsShort)) →
      OnOrderEvent { env with portfolio := p2 } s o e = OnOrderEvent env s o e) := by
  have key : ∀ (env2 : BrokerEnv),
      ((o.direction = OrderDirection.Buy ∧ env2.portfolio.IsLong) ∨
       (o.direction = OrderDirection.Sell ∧ env2.portfolio.IsShort)) →
      env2.atrIsReady = true →
      OnOrderEvent env2 s o e =
        PlaceStopLossAndProfitTarget env2 { s with entry_price := e.fillPrice }
          o.direction e.absoluteFillQuantity e.fillPrice env2.atrValue :=
    fun env2 hd hr => onOrderEvent_entry env2 s o e hstatus hsym htype hstop htgt hd hr
  constructor
  · rw [key env hdir hready]
    unfold PlaceStopLossAndProfitTarget
    rw [if_neg (not_le.mpr hApos)]
    simp only []
    rcases h1 : env.stopTicketResult with _ | tS
    · exact ⟨_, _, _, by rw [if_pos (Or.inl (by simp [h1]))]; rfl⟩
    · rcases h2 : env.targetTicketResult with _ | tT
      · exact ⟨_, _, _, by rw [if_pos (Or.inr (by simp [h2]))]; rfl⟩
      · exact ⟨_, _, _, by rw [if_neg (by simp [h1, h2])]⟩
  · intro p2 hdir2
    rw [key { env with portfolio := p2 } hdir2 hready, key env hdir hready]
    rfl

/-- Witness for C7: a short entry fill of 7 shares yields closing orders
of quantity +7 regardless of whether the portfolio holds -7 or -12. -/
theorem C7_closing_order_quantity_witness :
    (∃ sp tp rest,
      (OnOrderEvent ⟨⟨-7⟩, true, 3, some ⟨5, OrderStatus.Submitted⟩,
          some ⟨6, OrderStatus.Submitted⟩⟩ ⟨0, none, none⟩
          ⟨Sym.SPY, OrderType.Market, OrderDirection.Sell⟩
          ⟨4, OrderStatus.Filled, 200, 7⟩).2 =
        Effect.stopMarketOrder Sym.SPY 7 sp "ATR SL" ::
        Effect.limitOrder Sym.SPY 7 tp "ATR PT" :: rest) ∧
    OnOrderEvent ⟨⟨-12⟩, true, 3, some ⟨5, OrderStatus.Submitted⟩,
        some ⟨6, OrderStatus.Submitted⟩⟩ ⟨0, none, none⟩
        ⟨Sym.SPY, OrderType.Market, OrderDirection.Sell⟩
        ⟨4, OrderStatus.Filled, 200, 7⟩ =
      OnOrderEvent ⟨⟨-7⟩, true, 3, some ⟨5, OrderStatus.Submitted⟩,
        some ⟨6, OrderStatus.Submitted⟩⟩ ⟨0, none, none⟩
        ⟨Sym.SPY, OrderType.Market, OrderDirection.Sell⟩
        ⟨4, OrderStatus.Filled, 200, 7⟩ := by
  have h := C7_closing_order_quantity
    ⟨⟨-7⟩, true, 3, some ⟨5, OrderStatus.Submitted⟩, some ⟨6, OrderStatus.Submitted⟩⟩
    ⟨0, none, none⟩ ⟨Sym.SPY, OrderType.Market, OrderDirection.Sell⟩
    ⟨4, OrderStatus.Filled, 200, 7⟩
    rfl rfl rfl rfl rfl (Or.inr ⟨rfl, by norm_num [PortfolioState.IsShort]⟩)
    rfl (by norm_num)
  obtain ⟨⟨sp, tp, rest, hlist⟩, hindep⟩ := h
  refine ⟨⟨sp, tp, rest, ?_⟩, ?_⟩
  · simpa using hlist
  · exact hindep ⟨-12⟩ (Or.inr ⟨rfl, by norm_num [PortfolioState.IsShort]⟩)

/-- Claim C10 (implicit): a Filled market-order event arriving while both
ticket references are absent, whose direction does not match the current
holding (in particular the fill of a liquidation order, which leaves the
portfolio flat), changes no tracking field and submits no orders. -/
theorem C10_liquidation_fill_noop (env : BrokerEnv) (s : TrackingState)
    (o : Order) (e : OrderEvent)
    (hstatus : e.status = OrderStatus.Filled)
    (hsym : o.symbol = Sym.SPY) (htype : o.type = OrderType.Market)
    (hstop : s.stop_loss_order_ticket = none)
    (htgt : s.profit_target_order_ticket = none)
    (hmis : ¬ ((o.direction = OrderDirection.Buy ∧ env.portfolio.IsLong) ∨
               (o.direction = OrderDirection.Sell ∧ env.portfolio.IsShort))) :
    OnOrderEvent env s o e = (s, []) := by
  unfold OnOrderEvent
  rw [if_pos hstatus, if_pos ⟨hsym, htype, hstop, htgt⟩, if_neg hmis]

/-- Witness for C10: a liquidation-order fill (Sell, portfolio now flat)
with cleared tickets leaves the tracking state untouched and emits no
requests. -/
theorem C10_liquidation_fill_noop_witness :
    OnOrderEvent ⟨⟨0⟩, true, 2, none, none⟩ ⟨50, none, none⟩
      ⟨Sym.SPY, OrderType.Market, OrderDirection.Sell⟩
      ⟨9, OrderStatus.Filled, 101, 10⟩ = (⟨50, none, none⟩, []) :=
  C10_liquidation_fill_noop ⟨⟨0⟩, true, 2, none, none⟩ ⟨50, none, none⟩
    ⟨Sym.SPY, OrderType.Market, OrderDirection.Sell⟩
    ⟨9, OrderStatus.Filled, 101, 10⟩ rfl rfl rfl rfl rfl
    (by simp [PortfolioState.IsLong, PortfolioState.IsShort])

end MeanReversionSpyRsiKr

namespace MeanReversionSpyRsiKr

/-- Claim C4: an entry-fill event processed while the risk unit is absent
(ATR not ready) or non-positive triggers exactly one request, a full
liquidation; no stop or target order is submitted, both ticket references
stay absent, and once the requested liquidation completes (flat holding)
the derived state is FLAT. -/
theorem C4_sizing_failure (env : BrokerEnv) (s : TrackingState)
    (o : Order) (e : OrderEvent)
    (hstatus : e.status = OrderStatus.Filled)
    (hsym : o.symbol = Sym.SPY) (htype : o.type = OrderType.Market)
    (hstop : s.stop_loss_order_ticket = none)
    (htgt : s.profit_target_order_ticket = none)
    (hdir : (o.direction = OrderDirection.Buy ∧ env.portfolio.IsLong) ∨
            (o.direction = OrderDirection.Sell ∧ env.portfolio.IsShort))
    (hbad : env.atrIsReady = false ∨ env.atrValue ≤ 0) :
    ((OnOrderEvent env s o e).2 = [Effect.liquidate Sym.SPY "ATR Not Ready on Fill"] ∨
     (OnOrderEvent env s o e).2 = [Effect.liquidate Sym.SPY "Invalid ATR for SL/PT"]) ∧
    (∀ eff ∈ (OnOrderEvent env s o e).2, eff.isSubmission = false) ∧
    (OnOrderEvent env s o e).1.stop_loss_order_ticket = none ∧
    (OnOrderEvent env s o e).1.profit_target_order_ticket = none ∧
    IsFLAT ⟨0⟩ (OnOrderEvent env s o e).1 := by
  rcases hr : env.atrIsReady with _ | _
  · rw [onOrderEvent_entry_atr_not_ready env s o e hstatus hsym htype hstop htgt hdir hr]
    refine ⟨Or.inl rfl, ?_, by simp [hstop], by simp [htgt], rfl, by simp [hstop], by simp [htgt]⟩
    intro eff heff
    simp only [List.mem_singleton] at heff
    rw [heff]
    rfl
  · have hle : env.atrValue ≤ 0 := by
      rcases hbad with h | h
      · rw [hr] at h; cases h
      · exact h
    rw [onOrderEvent_entry env s o e hstatus hsym htype hstop htgt hdir hr,
      place_nonpos_atr env _ o.direction _ _ _ hle]
    refine ⟨Or.inr rfl, ?_, by simp [hstop], by simp [htgt], rfl, by simp [hstop], by simp [htgt]⟩
    intro eff heff
    simp only [List.mem_singleton] at heff
    rw [heff]
    rfl

/-- Witness for C4: the spec's Scenario C, an entry fill at 50 for 10
shares with the ATR not ready, requests liquidation only and leads to a
FLAT derived state. -/
theorem C4_sizing_failure_witness :
    ((OnOrderEvent ⟨⟨10⟩, false, 2, none, none⟩ ⟨0, none, none⟩
        ⟨Sym.SPY, OrderType.Market, OrderDirection.Buy⟩
        ⟨1, OrderStatus.Filled, 50, 10⟩).2 =
      [Effect.liquidate Sym.SPY "ATR Not Ready on Fill"] ∨
     (OnOrderEvent ⟨⟨10⟩, false, 2, none, none⟩ ⟨0, none, none⟩
        ⟨Sym.SPY, OrderType.Market, OrderDirection.Buy⟩
        ⟨1, OrderStatus.Filled, 50, 10⟩).2 =
      [Effect.liquidate Sym.SPY "Invalid ATR for SL/PT"]) ∧
    IsFLAT ⟨0⟩ (OnOrderEvent ⟨⟨10⟩, false, 2, none, none⟩ ⟨0, none, none⟩
        ⟨Sym.SPY, OrderType.Market, OrderDirection.Buy⟩
        ⟨1, OrderStatus.Filled, 50, 10⟩).1 := by
  have h := C4_sizing_failure ⟨⟨10⟩, false, 2, none, none⟩ ⟨0, none, none⟩
    ⟨Sym.SPY, OrderType.Market, OrderDirection.Buy⟩
    ⟨1, OrderStatus.Filled, 50, 10⟩
    rfl rfl rfl rfl rfl (Or.inl ⟨rfl, by norm_num [PortfolioState.IsLong]⟩)
    (Or.inl rfl)
  exact ⟨h.1, h.2.2.2.2⟩

end MeanReversionSpyRsiKr

namespace MeanReversionSpyRsiKr

/-- OnOrderEvent on a fill event that matches the tracked stop-loss
ticket: cancel the profit-target leg if present, then reset tracking. -/
theorem onOrderEvent_stop_fill (env : BrokerEnv) (s : TrackingState)
    (o : Order) (e : OrderEvent) (t1 : OrderTicket)
    (hstatus : e.status = OrderStatus.Filled)
    (hstop : s.stop_loss_order_ticket = some t1)
    (hid : e.orderId = t1.orderId) :
    OnOrderEvent env s o e =
      (ResetTradeTracking s,
       cancelIfPresent s.profit_target_order_ticket "Stop Loss Hit") := by
  unfold OnOrderEvent
  rw [if_pos hstatus, if_neg (by simp [hstop]), if_pos (by simp [ticketMatches, hstop, hid])]

/-- OnOrderEvent on a fill event that matches the tracked profit-target
ticket but not the stop-loss ticket: cancel the stop-loss leg if present,
then reset tracking. -/
theorem onOrderEvent_target_fill (env : BrokerEnv) (s : TrackingState)
    (o : Order) (e : OrderEvent) (t2 : OrderTicket)
    (hstatus : e.status = OrderStatus.Filled)
    (htgt : s.profit_target_order_ticket = some t2)
    (hid : e.orderId = t2.orderId)
    (hnostop : ticketMatches s.stop_loss_order_ticket e = false) :
    OnOrderEvent env s o e =
      (ResetTradeTracking s,
       cancelIfPresent s.stop_loss_order_ticket "Profit Target Hit") := by
  unfold OnOrderEvent
  rw [if_pos hstatus, if_neg (by simp [htgt]), if_neg (by simp [hnostop]),
    if_pos (by simp [ticketMatches, htgt, hid])]

/-- OnOrderEvent on a fill event for a non-market order while both ticket
references are absent: a no-op (the stale-fill absorber). -/
theorem onOrderEvent_fill_cleared_noop (env : BrokerEnv) (s : TrackingState)
    (o : Order) (e : OrderEvent)
    (hstatus : e.status = OrderStatus.Filled)
    (hty : o.type ≠ OrderType.Market)
    (hstop : s.stop_loss_order_ticket = none)
    (htgt : s.profit_target_order_ticket = none) :
    OnOrderEvent env s o e = (s, []) := by
  unfold OnOrderEvent
  rw [if_pos hstatus, if_neg (by simp [hty]),
    if_neg (by simp [ticketMatches, hstop]), if_neg (by simp [ticketMatches, htgt])]

/-- Claim C1 (OCO exclusivity): from any bracketed state holding distinct
stop and target tickets, whichever of the stop-fill and target-fill
events is delivered first is honored (the opposite leg is canceled and
tracking is reset), and the one delivered second finds its ticket
reference already cleared and leaves the state unchanged, emitting
nothing.  The broker environments of the two deliveries are arbitrary
and independent. -/
theorem C1_oco_exclusivity (env1 env2 : BrokerEnv) (s : TrackingState)
    (t1 t2 : OrderTicket) (oS oT : Order) (eS eT : OrderEvent)
    (hstop : s.stop_loss_order_ticket = some t1)
    (htgt : s.profit_target_order_ticket = some t2)
    (hne : t1.orderId ≠ t2.orderId)
    (heSs : eS.status = OrderStatus.Filled) (heS : eS.orderId = t1.orderId)
    (heTs : eT.status = OrderStatus.Filled) (heT : eT.orderId = t2.orderId)
    (hoS : oS.type = OrderType.StopMarket) (hoT : oT.type = OrderType.Limit) :
    (OnOrderEvent env1 s oS eS =
       (ResetTradeTracking s, [Effect.cancel t2.orderId "Stop Loss Hit"]) ∧
     OnOrderEvent env2 (OnOrderEvent env1 s oS eS).1 oT eT =
       ((OnOrderEvent env1 s oS eS).1, [])) ∧
    (OnOrderEvent env1 s oT eT =
       (ResetTradeTracking s, [Effect.cancel t1.orderId "Profit Target Hit"]) ∧
     OnOrderEvent env2 (OnOrderEvent env1 s oT eT).1 oS eS =
       ((OnOrderEvent env1 s oT eT).1, [])) := by
  have hS1 : OnOrderEvent env1 s oS eS =
      (ResetTradeTracking s, [Effect.cancel t2.orderId "Stop Loss Hit"]) := by
    rw [onOrderEvent_stop_fill env1 s oS eS t1 heSs hstop heS, htgt]
    rfl
  have hT1 : OnOrderEvent env1 s oT eT =
      (ResetTradeTracking s, [Effect.cancel t1.orderId "Profit Target Hit"]) := by
    rw [onOrderEvent_target_fill env1 s oT eT t2 heTs htgt heT
      (by simp [ticketMatches, hstop, heT]; exact fun h => absurd h.symm hne), hstop]
    rfl
  refine ⟨⟨hS1, ?_⟩, ⟨hT1, ?_⟩⟩
  · rw [hS1]
    exact onOrderEvent_fill_cleared_noop env2 _ oT eT heTs (by rw [hoT]; decide) rfl rfl
  · rw [hT1]
    exact onOrderEvent_fill_cleared_noop env2 _ oS eS heSs (by rw [hoS]; decide) rfl rfl

/-- Witness for C1: a concrete bracketed state (stop ticket 12, target
ticket 13); the stop-fill then the stale target-fill, and the target-fill
then the stale stop-fill, each honor exactly the first event. -/
theorem C1_oco_exclusivity_witness :
    (OnOrderEvent ⟨⟨0⟩, true, 2, none, none⟩ ⟨98, some ⟨12, OrderStatus.Submitted⟩,
        some ⟨13, OrderStatus.Submitted⟩⟩
        ⟨Sym.SPY, OrderType.StopMarket, OrderDirection.Sell⟩
        ⟨12, OrderStatus.Filled, 95, 10⟩ =
      (⟨0, none, none⟩, [Effect.cancel 13 "Stop Loss Hit"]) ∧
     OnOrderEvent ⟨⟨0⟩, true, 2, none, none⟩ ⟨0, none, none⟩
        ⟨Sym.SPY, OrderType.Limit, OrderDirection.Sell⟩
        ⟨13, OrderStatus.Filled, 104, 10⟩ = (⟨0, none, none⟩, [])) ∧
    (OnOrderEvent ⟨⟨0⟩, true, 2, none, none⟩ ⟨98, some ⟨12, OrderStatus.Submitted⟩,
        some ⟨13, OrderStatus.Submitted⟩⟩
        ⟨Sym.SPY, OrderType.Limit, OrderDirection.Sell⟩
        ⟨13, OrderStatus.Filled, 104, 10⟩ =
      (⟨0, none, none⟩, [Effect.cancel 12 "Profit Target Hit"]) ∧
     OnOrderEvent ⟨⟨0⟩, true, 2, none, none⟩ ⟨0, none, none⟩
        ⟨Sym.SPY, OrderType.StopMarket, OrderDirection.Sell⟩
        ⟨12, OrderStatus.Filled, 95, 10⟩ = (⟨0, none, none⟩, [])) := by
  have h := C1_oco_exclusivity ⟨⟨0⟩, true, 2, none, none⟩ ⟨⟨0⟩, true, 2, none, none⟩
    ⟨98, some ⟨12, OrderStatus.Submitted⟩, some ⟨13, OrderStatus.Submitted⟩⟩
    ⟨12, OrderStatus.Submitted⟩ ⟨13, OrderStatus.Submitted⟩
    ⟨Sym.SPY, OrderType.StopMarket, OrderDirection.Sell⟩
    ⟨Sym.SPY, OrderType.Limit, OrderDirection.Sell⟩
    ⟨12, OrderStatus.Filled, 95, 10⟩ ⟨13, OrderStatus.Filled, 104, 10⟩
    rfl rfl (by decide) rfl rfl rfl rfl rfl rfl
  obtain ⟨⟨hS1, hS2⟩, ⟨hT1, hT2⟩⟩ := h
  rw [hS1] at hS2
  rw [hT1] at hT2
  exact ⟨⟨hS1, hS2⟩, ⟨hT1, hT2⟩⟩

end MeanReversionSpyRsiKr

namespace MeanReversionSpyRsiKr

/-- OnData in the invested branch when the RSI exit condition fires:
liquidate, then cancel both bracket legs, then reset tracking. -/
theorem onData_rsi_exit (env : DataEnv) (s : TrackingState)
    (hw : env.isWarmingUp = false) (hd : env.hasSpyData = true)
    (hr : env.rsiIsReady = true) (ha : env.atrIsReady = true)
    (hk : env.krIsReady = true)
    (hsig : (env.portfolio.IsLong ∧ rsi_exit_level < env.rsiValue) ∨
            (env.portfolio.IsShort ∧ env.rsiValue < rsi_exit_level)) :
    OnData env s =
      ((CancelStopLossAndProfitTarget s).1,
       Effect.liquidate Sym.SPY "RSI Exit" :: (CancelStopLossAndProfitTarget s).2) := by
  have hinv : env.portfolio.Invested := by
    rcases hsig with ⟨h, _⟩ | ⟨h, _⟩
    · exact ne_of_gt h
    · exact ne_of_lt h
  unfold OnData
  rw [hw, if_neg (by simp), if_neg (by simp [hd]), if_neg (by simp [hr, ha, hk]),
    if_neg (by simp [hinv])]
  rcases hsig with ⟨hl, hx⟩ | ⟨hs, hx⟩
  · rw [if_pos ⟨hl, hx⟩]
  · have hnl : ¬ (env.portfolio.IsLong ∧ rsi_exit_level < env.rsiValue) := by
      rintro ⟨hl, _⟩
      exact absurd (lt_trans hs hl) (lt_irrefl _)
    rw [if_neg hnl, if_pos ⟨hs, hx⟩]

/-- Claim C9: in an OPEN_BRACKETED state with both tickets still active,
an RSI exit signal makes OnData request liquidation, cancel both bracket
legs, and clear both ticket references and the entry price in the same
synchronous step; any bracket-leg fill event (a non-market order fill)
processed afterwards is a no-op. -/
theorem C9_exit_now (env : DataEnv) (s : TrackingState) (t1 t2 : OrderTicket)
    (hw : env.isWarmingUp = false) (hd : env.hasSpyData = true)
    (hr : env.rsiIsReady = true) (ha : env.atrIsReady = true)
    (hk : env.krIsReady = true)
    (hstop : s.stop_loss_order_ticket = some t1)
    (htgt : s.profit_target_order_ticket = some t2)
    (hact1 : t1.status.isActive = true) (hact2 : t2.status.isActive = true)
    (hsig : (env.portfolio.IsLong ∧ rsi_exit_level < env.rsiValue) ∨
            (env.portfolio.IsShort ∧ env.rsiValue < rsi_exit_level)) :
    OnData env s =
      (ResetTradeTracking s,
       [Effect.liquidate Sym.SPY "RSI Exit",
        Effect.cancel t1.orderId "Position Closed Manually",
        Effect.cancel t2.orderId "Position Closed Manually"]) ∧
    ResetComplete (OnData env s).1 ∧
    (∀ (env2 : BrokerEnv) (o : Order) (e : OrderEvent),
      o.type ≠ OrderType.Market → e.status = OrderStatus.Filled →
      OnOrderEvent env2 (OnData env s).1 o e = ((OnData env s).1, [])) := by
  have hmain : OnData env s =
      (ResetTradeTracking s,
       [Effect.liquidate Sym.SPY "RSI Exit",
        Effect.cancel t1.orderId "Position Closed Manually",
        Effect.cancel t2.orderId "Position Closed Manually"]) := by
    rw [onData_rsi_exit env s hw hd hr ha hk hsig]
    unfold CancelStopLossAndProfitTarget
    rw [hstop, htgt]
    simp [hact1, hact2]
  refine ⟨hmain, ?_, ?_⟩
  · rw [hmain]
    exact ⟨rfl, rfl, rfl⟩
  · intro env2 o e hty hstatus
    rw [hmain]
    exact onOrderEvent_fill_cleared_noop env2 _ o e hstatus hty rfl rfl

/-- Witness for C9: a long bracketed position (stop ticket 21, target
ticket 22) with RSI at 60 is liquidated, both legs canceled, tracking
reset, and a late stop-leg fill is absorbed. -/
theorem C9_exit_now_witness :
    OnData ⟨false, true, true, true, true, 60, 2, 500, 400, ⟨10⟩, 10, -10⟩
      ⟨100, some ⟨21, OrderStatus.Submitted⟩, some ⟨22, OrderStatus.Submitted⟩⟩ =
      (⟨0, none, none⟩,
       [Effect.liquidate Sym.SPY "RSI Exit",
        Effect.cancel 21 "Position Closed Manually",
        Effect.cancel 22 "Position Closed Manually"]) ∧
    OnOrderEvent ⟨⟨0⟩, true, 2, none, none⟩ ⟨0, none, none⟩
      ⟨Sym.SPY, OrderType.StopMarket, OrderDirection.Sell⟩
      ⟨21, OrderStatus.Filled, 97, 10⟩ = (⟨0, none, none⟩, []) := by
  have h := C9_exit_now ⟨false, true, true, true, true, 60, 2, 500, 400, ⟨10⟩, 10, -10⟩
    ⟨100, some ⟨21, OrderStatus.Submitted⟩, some ⟨22, OrderStatus.Submitted⟩⟩
    ⟨21, OrderStatus.Submitted⟩ ⟨22, OrderStatus.Submitted⟩
    rfl rfl rfl rfl rfl rfl rfl rfl rfl
    (Or.inl ⟨by norm_num [PortfolioState.IsLong], by norm_num [rsi_exit_level]⟩)
  refine ⟨h.1, ?_⟩
  have h2 := h.2.2 ⟨⟨0⟩, true, 2, none, none⟩
    ⟨Sym.SPY, OrderType.StopMarket, OrderDirection.Sell⟩
    ⟨21, OrderStatus.Filled, 97, 10⟩ (by decide) rfl
  rw [h.1] at h2
  exact h2

end MeanReversionSpyRsiKr

namespace MeanReversionSpyRsiKr

/-- Counterexample to claim C2 as stated: an entry fill at price 50
processed with the ATR indicator not ready forces a liquidation (a
transition into FLAT: flat holding once the liquidation completes, both
ticket references absent), yet the tracked entry price remains 50, not 0
— this path never calls ResetTradeTracking. -/
theorem C2_counterexample :
    (OnOrderEvent ⟨⟨10⟩, false, 2, none, none⟩ ⟨0, none, none⟩
        ⟨Sym.SPY, OrderType.Market, OrderDirection.Buy⟩
        ⟨1, OrderStatus.Filled, 50, 10⟩).2 =
      [Effect.liquidate Sym.SPY "ATR Not Ready on Fill"] ∧
    (OnOrderEvent ⟨⟨10⟩, false, 2, none, none⟩ ⟨0, none, none⟩
        ⟨Sym.SPY, OrderType.Market, OrderDirection.Buy⟩
        ⟨1, OrderStatus.Filled, 50, 10⟩).1.stop_loss_order_ticket = none ∧
    (OnOrderEvent ⟨⟨10⟩, false, 2, none, none⟩ ⟨0, none, none⟩
        ⟨Sym.SPY, OrderType.Market, OrderDirection.Buy⟩
        ⟨1, OrderStatus.Filled, 50, 10⟩).1.profit_target_order_ticket = none ∧
    (OnOrderEvent ⟨⟨10⟩, false, 2, none, none⟩ ⟨0, none, none⟩
        ⟨Sym.SPY, OrderType.Market, OrderDirection.Buy⟩
        ⟨1, OrderStatus.Filled, 50, 10⟩).1.entry_price = 50 ∧
    ¬ ResetComplete (OnOrderEvent ⟨⟨10⟩, false, 2, none, none⟩ ⟨0, none, none⟩
        ⟨Sym.SPY, OrderType.Market, OrderDirection.Buy⟩
        ⟨1, OrderStatus.Filled, 50, 10⟩).1 := by
  refine ⟨by decide, by decide, by decide, by decide, ?_⟩
  intro h
  have := h.1
  revert this
  decide

/-- Claim C2 as amended: after every transition into FLAT through a
resetting path — a fill matching the stop ticket, a fill matching the
target ticket, the RSI exit in OnData, an entry failure event
(Invalid, CancelPending or Error on a market order while not invested),
a cancellation processed while not invested, or a bracket-submission
failure — the tracked entry price is 0 and both ticket references are
absent; but after a sizing-failure liquidation (ATR not ready, or ATR
non-positive, at entry fill) both ticket references are absent while the
tracked entry price remains the entry fill price. -/
theorem C2_reset_completeness_amended :
    (∀ (env : BrokerEnv) (s : TrackingState) (o : Order) (e : OrderEvent)
       (t1 : OrderTicket),
       e.status = OrderStatus.Filled → s.stop_loss_order_ticket = some t1 →
       e.orderId = t1.orderId → ResetComplete (OnOrderEvent env s o e).1) ∧
    (∀ (env : BrokerEnv) (s : TrackingState) (o : Order) (e : OrderEvent)
       (t2 : OrderTicket),
       e.status = OrderStatus.Filled → s.profit_target_order_ticket = some t2 →
       e.orderId = t2.orderId → ResetComplete (OnOrderEvent env s o e).1) ∧
    (∀ (env : DataEnv) (s : TrackingState),
       env.isWarmingUp = false → env.hasSpyData = true →
       env.rsiIsReady = true → env.atrIsReady = true → env.krIsReady = true →
       ((env.portfolio.IsLong ∧ rsi_exit_level < env.rsiValue) ∨
        (env.portfolio.IsShort ∧ env.rsiValue < rsi_exit_level)) →
       ResetComplete (OnData env s).1) ∧
    (∀ (env : BrokerEnv) (s : TrackingState) (o : Order) (e : OrderEvent),
       (e.status = OrderStatus.Invalid ∨ e.status = OrderStatus.CancelPending ∨
        e.status = OrderStatus.Error) →
       o.type = OrderType.Market → ¬ env.portfolio.Invested →
       ResetComplete (OnOrderEvent env s o e).1) ∧
    (∀ (env : BrokerEnv) (s : TrackingState) (o : Order) (e : OrderEvent),
       e.status = OrderStatus.Canceled → ¬ env.portfolio.Invested →
       ResetComplete (OnOrderEvent env s o e).1) ∧
    (∀ (env : BrokerEnv) (s : TrackingState) (o : Order) (e : OrderEvent),
       e.status = OrderStatus.Filled → o.symbol = Sym.SPY →
       o.type = OrderType.Market → s.stop_loss_order_ticket = none →
       s.profit_target_order_ticket = none →
       ((o.direction = OrderDirection.Buy ∧ env.portfolio.IsLong) ∨
        (o.direction = OrderDirection.Sell ∧ env.portfolio.IsShort)) →
       env.atrIsReady = true → 0 < env.atrValue →
       (env.stopTicketResult = none ∨ env.targetTicketResult = none) →
       ResetComplete (OnOrderEvent env s o e).1) ∧
    (∀ (env : BrokerEnv) (s : TrackingState) (o : Order) (e : OrderEvent),
       e.status = OrderStatus.Filled → o.symbol = Sym.SPY →
       o.type = OrderType.Market → s.stop_loss_order_ticket = none →
       s.profit_target_order_ticket = none →
       ((o.direction = OrderDirection.Buy ∧ env.portfolio.IsLong) ∨
        (o.direction = OrderDirection.Sell ∧ env.portfolio.IsShort)) →
       (env.atrIsReady = false ∨ env.atrValue ≤ 0) →
       (OnOrderEvent env s o e).1.stop_loss_order_ticket = none ∧
       (OnOrderEvent env s o e).1.profit_target_order_ticket = none ∧
       (OnOrderEvent env s o e).1.entry_price = e.fillPrice) := by
  refine ⟨?_, ?_, ?_, ?_, ?_, ?_, ?_⟩
  · intro env s o e t1 hstatus hstop hid
    rw [onOrderEvent_stop_fill env s o e t1 hstatus hstop hid]
    exact ⟨rfl, rfl, rfl⟩
  · intro env s o e t2 hstatus htgt hid
    rcases hm : ticketMatches s.stop_loss_order_ticket e with _ | _
    · rw [onOrderEvent_target_fill env s o e t2 hstatus htgt hid hm]
      exact ⟨rfl, rfl, rfl⟩
    · rcases h1 : s.stop_loss_order_ticket with _ | t1
      · rw [h1] at hm
        cases hm
      · have hid1 : e.orderId = t1.orderId := by
          rw [h1] at hm
          simpa [ticketMatches] using hm
        rw [onOrderEvent_stop_fill env s o e t1 hstatus h1 hid1]
        exact ⟨rfl, rfl, rfl⟩
  · intro env s hw hd hr ha hk hsig
    rw [onData_rsi_exit env s hw hd hr ha hk hsig]
    exact ⟨rfl, rfl, rfl⟩
  · intro env s o e hstatus hty hninv
    unfold OnOrderEvent
    rw [if_neg (by rcases hstatus with h | h | h <;> rw [h] <;> decide),
      if_neg (by rcases hstatus with h | h | h <;> rw [h] <;> decide),
      if_pos (by rcases hstatus with h | h | h <;> rw [h] <;> simp),
      if_pos ⟨hty, hninv⟩]
    exact ⟨rfl, rfl, rfl⟩
  · intro env s o e hstatus hninv
    unfold OnOrderEvent
    rw [if_neg (by rw [hstatus]; decide), if_pos hstatus]
    simp only [if_pos hninv]
    exact ⟨rfl, rfl, rfl⟩
  · intro env s o e hstatus hsym hty hstop htgt hdir hready hpos hfail
    rw [onOrderEvent_entry env s o e hstatus hsym hty hstop htgt hdir hready]
    rw [(place_fail env _ o.direction e.absoluteFillQuantity e.fillPrice env.atrValue
      hpos hfail).1]
    exact ⟨rfl, rfl, rfl⟩
  · intro env s o e hstatus hsym hty hstop htgt hdir hbad
    rcases hr : env.atrIsReady with _ | _
    · rw [onOrderEvent_entry_atr_not_ready env s o e hstatus hsym hty hstop htgt hdir hr]
      exact ⟨hstop, htgt, rfl⟩
    · have hle : env.atrValue ≤ 0 := by
        rcases hbad with h | h
        · rw [hr] at h
          cases h
        · exact h
      rw [onOrderEvent_entry env s o e hstatus hsym hty hstop htgt hdir hr,
        place_nonpos_atr env _ o.direction _ _ _ hle]
      exact ⟨hstop, htgt, rfl⟩

/-- Witness for the amended C2: a concrete stop-ticket fill resets
tracking completely, and a concrete sizing-failure fill leaves the entry
price at the fill price 50 with both ticket references absent. -/
theorem C2_reset_completeness_amended_witness :
    ResetComplete (OnOrderEvent ⟨⟨0⟩, true, 2, none, none⟩
      ⟨100, some ⟨31, OrderStatus.Submitted⟩, some ⟨32, OrderStatus.Submitted⟩⟩
      ⟨Sym.SPY, OrderType.StopMarket, OrderDirection.Sell⟩
      ⟨31, OrderStatus.Filled, 97, 10⟩).1 ∧
    (OnOrderEvent ⟨⟨10⟩, false, 2, none, none⟩ ⟨0, none, none⟩
      ⟨Sym.SPY, OrderType.Market, OrderDirection.Buy⟩
      ⟨33, OrderStatus.Filled, 50, 10⟩).1.entry_price = 50 := by
  constructor
  · exact C2_reset_completeness_amended.1 ⟨⟨0⟩, true, 2, none, none⟩
      ⟨100, some ⟨31, OrderStatus.Submitted⟩, some ⟨32, OrderStatus.Submitted⟩⟩
      ⟨Sym.SPY, OrderType.StopMarket, OrderDirection.Sell⟩
      ⟨31, OrderStatus.Filled, 97, 10⟩ ⟨31, OrderStatus.Submitted⟩ rfl rfl rfl
  · exact (C2_reset_completeness_amended.2.2.2.2.2.2 ⟨⟨10⟩, false, 2, none, none⟩
      ⟨0, none, none⟩ ⟨Sym.SPY, OrderType.Market, OrderDirection.Buy⟩
      ⟨33, OrderStatus.Filled, 50, 10⟩ rfl rfl rfl rfl rfl
      (Or.inl ⟨rfl, by norm_num [PortfolioState.IsLong]⟩) (Or.inl rfl)).2.2

end MeanReversionSpyRsiKr


namespace MeanReversionSpyRsiKr

/-- Counterexample to claim C3 as stated: an entry fill at 100 (ATR 2)
where the stop submission succeeds (ticket 41) and the target submission
fails.  The handler requests liquidation and resets tracking, but it
emits no cancel request at all — in particular none for the
successfully-submitted stop leg 41. -/
theorem C3_counterexample :
    OnOrderEvent ⟨⟨10⟩, true, 2, some ⟨41, OrderStatus.Submitted⟩, none⟩
        ⟨0, none, none⟩ ⟨Sym.SPY, OrderType.Market, OrderDirection.Buy⟩
        ⟨40, OrderStatus.Filled, 100, 10⟩ =
      (⟨0, none, none⟩,
       [Effect.stopMarketOrder Sym.SPY (-10) 97 "ATR SL",
        Effect.limitOrder Sym.SPY (-10) 106 "ATR PT",
        Effect.liquidate Sym.SPY "SL/PT Creation Failed"]) ∧
    (∀ eff ∈ (OnOrderEvent ⟨⟨10⟩, true, 2, some ⟨41, OrderStatus.Submitted⟩, none⟩
        ⟨0, none, none⟩ ⟨Sym.SPY, OrderType.Market, OrderDirection.Buy⟩
        ⟨40, OrderStatus.Filled, 100, 10⟩).2, eff.isCancel = false) := by
  have hmain : OnOrderEvent ⟨⟨10⟩, true, 2, some ⟨41, OrderStatus.Submitted⟩, none⟩
      ⟨0, none, none⟩ ⟨Sym.SPY, OrderType.Market, OrderDirection.Buy⟩
      ⟨40, OrderStatus.Filled, 100, 10⟩ =
      (⟨0, none, none⟩,
       [Effect.stopMarketOrder Sym.SPY (-10) 97 "ATR SL",
        Effect.limitOrder Sym.SPY (-10) 106 "ATR PT",
        Effect.liquidate Sym.SPY "SL/PT Creation Failed"]) := by
    rw [onOrderEvent_entry _ _ _ _ rfl rfl rfl rfl rfl
      (Or.inl ⟨rfl, by norm_num [PortfolioState.IsLong]⟩) rfl]
    unfold PlaceStopLossAndProfitTarget
    norm_num [atr_stop_multiplier, atr_profit_multiplier, ResetTradeTracking]
  refine ⟨hmain, ?_⟩
  rw [hmain]
  intro eff heff
  fin_cases heff <;> rfl

/-- Claim C3 as amended: when at least one of the two bracket submissions
after an entry fill returns no valid ticket, the controller submits the
two bracket attempts, requests liquidation of the position, and resets
tracking to FLAT (both ticket references cleared, so it never remains
tracking only one protective leg); it does not itself issue a cancel
request for a successfully-submitted leg — that cleanup is left to the
liquidation it requests. -/
theorem C3_partial_bracket_failure_amended (env : BrokerEnv)
    (s : TrackingState) (o : Order) (e : OrderEvent)
    (hstatus : e.status = OrderStatus.Filled)
    (hsym : o.symbol = Sym.SPY) (htype : o.type = OrderType.Market)
    (hstop : s.stop_loss_order_ticket = none)
    (htgt : s.profit_target_order_ticket = none)
    (hdir : (o.direction = OrderDirection.Buy ∧ env.portfolio.IsLong) ∨
            (o.direction = OrderDirection.Sell ∧ env.portfolio.IsShort))
    (hready : env.atrIsReady = true) (hApos : 0 < env.atrValue)
    (hfail : env.stopTicketResult = none ∨ env.targetTicketResult = none) :
    ResetComplete (OnOrderEvent env s o e).1 ∧
    (∃ sp tp cq, (OnOrderEvent env s o e).2 =
      [Effect.stopMarketOrder Sym.SPY cq sp "ATR SL",
       Effect.limitOrder Sym.SPY cq tp "ATR PT",
       Effect.liquidate Sym.SPY "SL/PT Creation Failed"]) ∧
    (∀ eff ∈ (OnOrderEvent env s o e).2, eff.isCancel = false) := by
  rw [onOrderEvent_entry env s o e hstatus hsym htype hstop htgt hdir hready]
  obtain ⟨h1, sp, tp, cq, h2⟩ := place_fail env
    { s with entry_price := e.fillPrice } o.direction e.absoluteFillQuantity
    e.fillPrice env.atrValue hApos hfail
  refine ⟨?_, ⟨sp, tp, cq, h2⟩, ?_⟩
  · rw [h1]
    exact ⟨rfl, rfl, rfl⟩
  · intro eff heff
    rw [h2] at heff
    fin_cases heff <;> rfl

/-- Witness for the amended C3: the concrete partial-failure input of the
counterexample, with the target leg rejected by the gateway. -/
theorem C3_partial_bracket_failure_amended_witness :
    ResetComplete (OnOrderEvent ⟨⟨-10⟩, true, 2, some ⟨43, OrderStatus.Submitted⟩, none⟩
      ⟨0, none, none⟩ ⟨Sym.SPY, OrderType.Market, OrderDirection.Sell⟩
      ⟨42, OrderStatus.Filled, 100, 10⟩).1 ∧
    (∃ sp tp cq, (OnOrderEvent ⟨⟨-10⟩, true, 2, some ⟨43, OrderStatus.Submitted⟩, none⟩
      ⟨0, none, none⟩ ⟨Sym.SPY, OrderType.Market, OrderDirection.Sell⟩
      ⟨42, OrderStatus.Filled, 100, 10⟩).2 =
      [Effect.stopMarketOrder Sym.SPY cq sp "ATR SL",
       Effect.limitOrder Sym.SPY cq tp "ATR PT",
       Effect.liquidate Sym.SPY "SL/PT Creation Failed"]) := by
  have h := C3_partial_bracket_failure_amended
    ⟨⟨-10⟩, true, 2, some ⟨43, OrderStatus.Submitted⟩, none⟩ ⟨0, none, none⟩
    ⟨Sym.SPY, OrderType.Market, OrderDirection.Sell⟩
    ⟨42, OrderStatus.Filled, 100, 10⟩
    rfl rfl rfl rfl rfl (Or.inr ⟨rfl, by norm_num [PortfolioState.IsShort]⟩)
    rfl (by norm_num) (Or.inr rfl)
  exact ⟨h.1, h.2.1⟩

end MeanReversionSpyRsiKr


namespace MeanReversionSpyRsiKr

/-- CancelStopLossAndProfitTarget emits only cancel requests, never a
market-order submission. -/
theorem cancel_no_market (s : TrackingState) (sym : Sym) (q : ℤ) :
    Effect.marketOrder sym q ∉ (CancelStopLossAndProfitTarget s).2 := by
  unfold CancelStopLossAndProfitTarget
  rcases s.stop_loss_order_ticket with _ | t1 <;>
    rcases s.profit_target_order_ticket with _ | t2 <;>
    simp only [] <;> (try split_ifs) <;> simp

/-- Counterexample to claim C5 as stated: OnData sees only the portfolio
holding and the tracking fields, so in ENTRY_PENDING (entry market order
submitted but not filled, hence a flat holding) its inputs are identical
to FLAT.  With RSI 20 < 30 and close 400 < KR 500 it submits another
entry market order instead of ignoring the signal. -/
theorem C5_counterexample :
    OnData ⟨false, true, true, true, true, 20, 2, 500, 400, ⟨0⟩, 10, -10⟩
      ⟨0, none, none⟩ =
      (⟨0, none, none⟩, [Effect.marketOrder Sym.SPY 10]) := by
  unfold OnData
  norm_num [PortfolioState.Invested, rsi_oversold, rsi_overbought]

/-- Claim C5 as amended: while the portfolio is invested
(OPEN_UNBRACKETED or OPEN_BRACKETED) no evaluation tick ever submits a
market order, and when no RSI exit condition holds the tick changes
nothing at all; but in ENTRY_PENDING the controller cannot distinguish
its inputs from FLAT (the holding is still flat), so an entry signal
submits a second entry market order. -/
theorem C5_mid_transition_amended :
    (∀ (env : DataEnv) (s : TrackingState) (sym : Sym) (q : ℤ),
       env.portfolio.Invested →
       Effect.marketOrder sym q ∉ (OnData env s).2) ∧
    (∀ (env : DataEnv) (s : TrackingState),
       env.portfolio.Invested →
       ¬ (env.portfolio.IsLong ∧ rsi_exit_level < env.rsiValue) →
       ¬ (env.portfolio.IsShort ∧ env.rsiValue < rsi_exit_level) →
       OnData env s = (s, [])) ∧
    (∀ (env : DataEnv) (s : TrackingState),
       env.isWarmingUp = false → env.hasSpyData = true →
       env.rsiIsReady = true → env.atrIsReady = true → env.krIsReady = true →
       ¬ env.portfolio.Invested →
       env.rsiValue < rsi_oversold → env.spyClose < env.krValue →
       env.longQuantity ≠ 0 →
       OnData env s = (s, [Effect.marketOrder Sym.SPY env.longQuantity])) := by
  refine ⟨?_, ?_, ?_⟩
  · intro env s sym q hinv
    unfold OnData
    split_ifs <;> simp_all [cancel_no_market]
  · intro env s hinv hnl hns
    unfold OnData
    split_ifs <;> rfl
  · intro env s hw hd hr ha hk hninv hlt hcls hq
    unfold OnData
    rw [hw, if_neg (by simp), if_neg (by simp [hd]),
      if_neg (by simp [hr, ha, hk]), if_pos hninv, if_pos ⟨hlt, hcls⟩, if_pos hq]

/-- Witness for the amended C5: with a long holding of 10 and RSI 40 a
tick changes nothing and submits no market order; with a flat holding and
the entry conditions of the counterexample a second entry of 10 shares is
submitted. -/
theorem C5_mid_transition_amended_witness :
    Effect.marketOrder Sym.SPY 10 ∉
      (OnData ⟨false, true, true, true, true, 40, 2, 500, 400, ⟨10⟩, 10, -10⟩
        ⟨100, some ⟨51, OrderStatus.Submitted⟩, some ⟨52, OrderStatus.Submitted⟩⟩).2 ∧
    OnData ⟨false, true, true, true, true, 40, 2, 500, 400, ⟨10⟩, 10, -10⟩
      ⟨100, some ⟨51, OrderStatus.Submitted⟩, some ⟨52, OrderStatus.Submitted⟩⟩ =
      (⟨100, some ⟨51, OrderStatus.Submitted⟩, some ⟨52, OrderStatus.Submitted⟩⟩, []) ∧
    OnData ⟨false, true, true, true, true, 20, 2, 500, 400, ⟨0⟩, 10, -10⟩
      ⟨0, none, none⟩ = (⟨0, none, none⟩, [Effect.marketOrder Sym.SPY 10]) := by
  refine ⟨?_, ?_, ?_⟩
  · exact C5_mid_transition_amended.1
      ⟨false, true, true, true, true, 40, 2, 500, 400, ⟨10⟩, 10, -10⟩
      ⟨100, some ⟨51, OrderStatus.Submitted⟩, some ⟨52, OrderStatus.Submitted⟩⟩
      Sym.SPY 10 (by norm_num [PortfolioState.Invested])
  · exact C5_mid_transition_amended.2.1
      ⟨false, true, true, true, true, 40, 2, 500, 400, ⟨10⟩, 10, -10⟩
      ⟨100, some ⟨51, OrderStatus.Submitted⟩, some ⟨52, OrderStatus.Submitted⟩⟩
      (by norm_num [PortfolioState.Invested])
      (by rintro ⟨_, h⟩; revert h; norm_num [rsi_exit_level])
      (by rintro ⟨h, _⟩; revert h; norm_num [PortfolioState.IsShort])
  · exact C5_mid_transition_amended.2.2
      ⟨false, true, true, true, true, 20, 2, 500, 400, ⟨0⟩, 10, -10⟩
      ⟨0, none, none⟩ rfl rfl rfl rfl rfl
      (by norm_num [PortfolioState.Invested])
      (by norm_num [rsi_oversold]) (by norm_num) (by norm_num)

end MeanReversionSpyRsiKr

namespace MeanReversionSpyRsiKr

/-- ticketMatches holds exactly when the reference holds a ticket whose
order id equals the event's order id. -/
theorem ticketMatches_eq_true (t? : Option OrderTicket) (e : OrderEvent) :
    ticketMatches t? e = true ↔ ∃ t, t? = some t ∧ e.orderId = t.orderId := by
  cases t? <;> simp [ticketMatches]

/-- ticketMatches is false when the ids differ. -/
theorem ticketMatches_false_of_ne (t : OrderTicket) (e : OrderEvent)
    (h : e.orderId ≠ t.orderId) : ticketMatches (some t) e = false := by
  simp [ticketMatches, h]

/-- The effect list of PlaceStopLossAndProfitTarget does not depend on
the tracking state passed in. -/
theorem place_effects_state_independent (env : BrokerEnv) (d : OrderDirection)
    (q : ℤ) (E A : ℚ) (s t : TrackingState) :
    (PlaceStopLossAndProfitTarget env s d q E A).2 =
      (PlaceStopLossAndProfitTarget env t d q E A).2 := by
  unfold PlaceStopLossAndProfitTarget
  by_cases hA : A ≤ 0
  · rw [if_pos hA, if_pos hA]
  · rw [if_neg hA, if_neg hA]
    rcases hs : env.stopTicketResult with _ | tS <;>
      rcases ht : env.targetTicketResult with _ | tT <;>
      simp [hs, ht]

/-- The tracking state produced by PlaceStopLossAndProfitTarget when both
gateway submissions return tickets. -/
theorem place_ok_state (env : BrokerEnv) (s : TrackingState)
    (d : OrderDirection) (q : ℤ) (E A : ℚ) (hA : 0 < A) (tS tT : OrderTicket)
    (hrs : env.stopTicketResult = some tS)
    (hrt : env.targetTicketResult = some tT) :
    (PlaceStopLossAndProfitTarget env s d q E A).1 =
      { s with stop_loss_order_ticket := some tS,
               profit_target_order_ticket := some tT } := by
  cases d
  · rw [place_buy_ok env s q E A hA tS tT hrs hrt]
  · rw [place_sell_ok env s q E A hA tS tT hrs hrt]

/-- OnOrderEvent on a fill event that fires no branch: the entry guard
fails and neither ticket reference matches the event. -/
theorem onOrderEvent_fill_stale (env : BrokerEnv) (s : TrackingState)
    (o : Order) (e : OrderEvent)
    (hstatus : e.status = OrderStatus.Filled)
    (h1 : ¬ (o.symbol = Sym.SPY ∧ o.type = OrderType.Market ∧
             s.stop_loss_order_ticket = none ∧ s.profit_target_order_ticket = none))
    (h2 : ticketMatches s.stop_loss_order_ticket e = false)
    (h3 : ticketMatches s.profit_target_order_ticket e = false) :
    OnOrderEvent env s o e = (s, []) := by
  unfold OnOrderEvent
  rw [if_pos hstatus, if_neg h1, if_neg (by simp [h2]), if_neg (by simp [h3])]

/-- OnOrderEvent on a Canceled event, spelled as the source's two
independent clearing steps followed by the flat-portfolio reset. -/
theorem onOrderEvent_canceled (env : BrokerEnv) (s : TrackingState)
    (o : Order) (e : OrderEvent) (hstatus : e.status = OrderStatus.Canceled) :
    OnOrderEvent env s o e =
      (if ¬ env.portfolio.Invested then
         ResetTradeTracking
           (if ticketMatches
               (if ticketMatches s.stop_loss_order_ticket e then
                  { s with stop_loss_order_ticket := none }
                else s).profit_target_order_ticket e then
              { (if ticketMatches s.stop_loss_order_ticket e then
                   { s with stop_loss_order_ticket := none }
                 else s) with profit_target_order_ticket := none }
            else (if ticketMatches s.stop_loss_order_ticket e then
                    { s with stop_loss_order_ticket := none }
                  else s))
       else
         (if ticketMatches
             (if ticketMatches s.stop_loss_order_ticket e then
                { s with stop_loss_order_ticket := none }
              else s).profit_target_order_ticket e then
            { (if ticketMatches s.stop_loss_order_ticket e then
                 { s with stop_loss_order_ticket := none }
               else s) with profit_target_order_ticket := none }
          else (if ticketMatches s.stop_loss_order_ticket e then
                  { s with stop_loss_order_ticket := none }
                else s)), []) := by
  unfold OnOrderEvent
  rw [if_neg (by rw [hstatus]; decide), if_pos hstatus]

/-- OnOrderEvent on an Invalid, CancelPending or Error event. -/
theorem onOrderEvent_error (env : BrokerEnv) (s : TrackingState)
    (o : Order) (e : OrderEvent)
    (hstatus : e.status = OrderStatus.Invalid ∨
               e.status = OrderStatus.CancelPending ∨
               e.status = OrderStatus.Error) :
    OnOrderEvent env s o e =
      (if o.type = OrderType.Market ∧ ¬ env.portfolio.Invested then
         ResetTradeTracking s
       else s, []) := by
  unfold OnOrderEvent
  rw [if_neg (by rcases hstatus with h | h | h <;> rw [h] <;> decide),
    if_neg (by rcases hstatus with h | h | h <;> rw [h] <;> decide),
    if_pos (by rcases hstatus with h | h | h <;> rw [h] <;> simp)]
  split_ifs <;> rfl

/-- OnOrderEvent on a Submitted event: no branch fires. -/
theorem onOrderEvent_submitted (env : BrokerEnv) (s : TrackingState)
    (o : Order) (e : OrderEvent) (hstatus : e.status = OrderStatus.Submitted) :
    OnOrderEvent env s o e = (s, []) := by
  unfold OnOrderEvent
  rw [if_neg (by rw [hstatus]; decide), if_neg (by rw [hstatus]; decide),
    if_neg (by rw [hstatus]; decide)]

end MeanReversionSpyRsiKr

namespace MeanReversionSpyRsiKr

/-- ticketMatches against an absent reference is false. -/
theorem ticketMatches_none (e : OrderEvent) : ticketMatches none e = false := rfl

/-- Claim C8: with gateway-fresh order ids (the two tracked tickets carry
distinct ids, the tickets returned for the bracket submissions carry ids
different from the processed event's id, and an event matching a tracked
ticket belongs to a non-market order), processing the same order event
twice from any state yields the same tracking state as processing it
once, and every request emitted by the second processing was already
emitted by the first — so the set of submitted and canceled orders is
unchanged. -/
theorem C8_idempotence (env : BrokerEnv) (s : TrackingState) (o : Order)
    (e : OrderEvent)
    (hpair : ∀ t1 t2, s.stop_loss_order_ticket = some t1 →
       s.profit_target_order_ticket = some t2 → t1.orderId ≠ t2.orderId)
    (hfreshS : ∀ t, env.stopTicketResult = some t → t.orderId ≠ e.orderId)
    (hfreshT : ∀ t, env.targetTicketResult = some t → t.orderId ≠ e.orderId)
    (hordS : ∀ t, s.stop_loss_order_ticket = some t → e.orderId = t.orderId →
       o.type ≠ OrderType.Market)
    (hordT : ∀ t, s.profit_target_order_ticket = some t → e.orderId = t.orderId →
       o.type ≠ OrderType.Market) :
    (OnOrderEvent env (OnOrderEvent env s o e).1 o e).1 =
      (OnOrderEvent env s o e).1 ∧
    (∀ eff ∈ (OnOrderEvent env (OnOrderEvent env s o e).1 o e).2,
       eff ∈ (OnOrderEvent env s o e).2) := by
  rcases hst : e.status with _ | _ | _ | _ | _ | _
  · -- Submitted
    rw [onOrderEvent_submitted env s o e hst]
    simp only []
    rw [onOrderEvent_submitted env s o e hst]
    exact ⟨rfl, by simp⟩
  · -- Filled
    by_cases hB1 : o.symbol = Sym.SPY ∧ o.type = OrderType.Market ∧
        s.stop_loss_order_ticket = none ∧ s.profit_target_order_ticket = none
    · obtain ⟨hsym, hty, hstop0, htgt0⟩ := hB1
      by_cases hdir : (o.direction = OrderDirection.Buy ∧ env.portfolio.IsLong) ∨
          (o.direction = OrderDirection.Sell ∧ env.portfolio.IsShort)
      · rcases hrdy : env.atrIsReady with _ | _
        · -- ATR not ready: the handler re-fires but converges
          rw [onOrderEvent_entry_atr_not_ready env s o e hst hsym hty hstop0 htgt0
            hdir hrdy]
          simp only []
          rw [onOrderEvent_entry_atr_not_ready env { s with entry_price := e.fillPrice }
            o e hst hsym hty hstop0 htgt0 hdir hrdy]
          exact ⟨rfl, fun eff h => h⟩
        · rw [onOrderEvent_entry env s o e hst hsym hty hstop0 htgt0 hdir hrdy]
          by_cases hA : env.atrValue ≤ 0
          · -- non-positive ATR: the handler re-fires but converges
            rw [place_nonpos_atr env _ o.direction _ _ _ hA]
            simp only []
            rw [onOrderEvent_entry env { s with entry_price := e.fillPrice } o e hst
              hsym hty hstop0 htgt0 hdir hrdy,
              place_nonpos_atr env _ o.direction _ _ _ hA]
            exact ⟨rfl, fun eff h => h⟩
          · have hApos : 0 < env.atrValue := not_le.mp hA
            rcases hs : env.stopTicketResult with _ | tS
            · -- stop submission failed: re-fires, same state and effects
              rw [(place_fail env { s with entry_price := e.fillPrice } o.direction
                e.absoluteFillQuantity e.fillPrice env.atrValue hApos (Or.inl hs)).1]
              rw [onOrderEvent_entry env (ResetTradeTracking
                  { s with entry_price := e.fillPrice }) o e hst hsym hty rfl rfl
                hdir hrdy]
              constructor
              · rw [(place_fail env _ o.direction e.absoluteFillQuantity e.fillPrice
                  env.atrValue hApos (Or.inl hs)).1]
                rfl
              · intro eff h
                rw [place_effects_state_independent env o.direction
                  e.absoluteFillQuantity e.fillPrice env.atrValue
                  { ResetTradeTracking { s with entry_price := e.fillPrice } with
                      entry_price := e.fillPrice }
                  { s with entry_price := e.fillPrice }] at h
                exact h
            · rcases ht : env.targetTicketResult with _ | tT
              · -- target submission failed: re-fires, same state and effects
                rw [(place_fail env { s with entry_price := e.fillPrice } o.direction
                  e.absoluteFillQuantity e.fillPrice env.atrValue hApos (Or.inr ht)).1]
                rw [onOrderEvent_entry env (ResetTradeTracking
                    { s with entry_price := e.fillPrice }) o e hst hsym hty rfl rfl
                  hdir hrdy]
                constructor
                · rw [(place_fail env _ o.direction e.absoluteFillQuantity e.fillPrice
                    env.atrValue hApos (Or.inr ht)).1]
                  rfl
                · intro eff h
                  rw [place_effects_state_independent env o.direction
                    e.absoluteFillQuantity e.fillPrice env.atrValue
                    { ResetTradeTracking { s with entry_price := e.fillPrice } with
                        entry_price := e.fillPrice }
                    { s with entry_price := e.fillPrice }] at h
                  exact h
              · -- both brackets accepted: second delivery is a no-op
                rw [place_ok_state env { s with entry_price := e.fillPrice } o.direction
                  e.absoluteFillQuantity e.fillPrice env.atrValue hApos tS tT hs ht]
                rw [onOrderEvent_fill_stale env _ o e hst (by simp)
                  (ticketMatches_false_of_ne tS e fun h => hfreshS tS hs h.symm)
                  (ticketMatches_false_of_ne tT e fun h => hfreshT tT ht h.symm)]
                exact ⟨rfl, by simp⟩
      · -- direction guard fails: a no-op both times
        have h1 : OnOrderEvent env s o e = (s, []) := by
          unfold OnOrderEvent
          rw [if_pos hst, if_pos ⟨hsym, hty, hstop0, htgt0⟩, if_neg hdir]
        rw [h1]
        simp only []
        rw [h1]
        exact ⟨rfl, fun eff h => h⟩
    · rcases hsm : ticketMatches s.stop_loss_order_ticket e with _ | _
      · rcases htm : ticketMatches s.profit_target_order_ticket e with _ | _
        · -- no branch fires: a no-op both times
          have h1 : OnOrderEvent env s o e = (s, []) :=
            onOrderEvent_fill_stale env s o e hst hB1 hsm htm
          rw [h1]
          simp only []
          rw [h1]
          exact ⟨rfl, fun eff h => h⟩
        · -- target fill honored once; the duplicate finds tickets cleared
          obtain ⟨t2, ht2, hid2⟩ := (ticketMatches_eq_true _ e).mp htm
          rw [onOrderEvent_target_fill env s o e t2 hst ht2 hid2 hsm]
          simp only []
          rw [onOrderEvent_fill_cleared_noop env (ResetTradeTracking s) o e hst
            (hordT t2 ht2 hid2) rfl rfl]
          exact ⟨rfl, by simp⟩
      · -- stop fill honored once; the duplicate finds tickets cleared
        obtain ⟨t1, ht1, hid1⟩ := (ticketMatches_eq_true _ e).mp hsm
        rw [onOrderEvent_stop_fill env s o e t1 hst ht1 hid1]
        simp only []
        rw [onOrderEvent_fill_cleared_noop env (ResetTradeTracking s) o e hst
          (hordS t1 ht1 hid1) rfl rfl]
        exact ⟨rfl, by simp⟩
  · -- Canceled
    by_cases hInv : env.portfolio.Invested
    · rcases hm1 : ticketMatches s.stop_loss_order_ticket e with _ | _
      · rcases hm2 : ticketMatches s.profit_target_order_ticket e with _ | _
        · -- nothing matches
          have h1 : OnOrderEvent env s o e = (s, []) := by
            rw [onOrderEvent_canceled env s o e hst]
            simp [hm1, hm2, hInv]
          rw [h1]
          simp only []
          rw [h1]
          exact ⟨rfl, fun eff h => h⟩
        · -- target reference cleared once
          have h1 : OnOrderEvent env s o e =
              ({ s with profit_target_order_ticket := none }, []) := by
            rw [onOrderEvent_canceled env s o e hst]
            simp [hm1, hm2, hInv]
          have h2 : OnOrderEvent env { s with profit_target_order_ticket := none }
              o e = ({ s with profit_target_order_ticket := none }, []) := by
            rw [onOrderEvent_canceled env _ o e hst]
            simp [hm1, hm2, hInv, ticketMatches_none]
          rw [h1]
          simp only []
          rw [h2]
          exact ⟨rfl, fun eff h => h⟩
      · rcases hm2 : ticketMatches s.profit_target_order_ticket e with _ | _
        · -- stop reference cleared once
          have h1 : OnOrderEvent env s o e =
              ({ s with stop_loss_order_ticket := none }, []) := by
            rw [onOrderEvent_canceled env s o e hst]
            simp [hm1, hm2, hInv]
          have h2 : OnOrderEvent env { s with stop_loss_order_ticket := none }
              o e = ({ s with stop_loss_order_ticket := none }, []) := by
            rw [onOrderEvent_canceled env _ o e hst]
            simp [hm1, hm2, hInv, ticketMatches_none]
          rw [h1]
          simp only []
          rw [h2]
          exact ⟨rfl, fun eff h => h⟩
        · -- both match: impossible with distinct ticket ids
          obtain ⟨t1, ht1, hid1⟩ := (ticketMatches_eq_true _ e).mp hm1
          obtain ⟨t2, ht2, hid2⟩ := (ticketMatches_eq_true _ e).mp hm2
          exact absurd (hid1.symm.trans hid2) (hpair t1 t2 ht1 ht2)
    · -- not invested: both deliveries reset to the cleared state
      have h1 : OnOrderEvent env s o e = (⟨0, none, none⟩, []) := by
        rw [onOrderEvent_canceled env s o e hst]
        simp [hInv, ResetTradeTracking]
      have h2 : OnOrderEvent env (⟨0, none, none⟩ : TrackingState) o e =
          (⟨0, none, none⟩, []) := by
        rw [onOrderEvent_canceled env _ o e hst]
        simp [hInv, ResetTradeTracking]
      rw [h1]
      simp only []
      rw [h2]
      exact ⟨rfl, fun eff h => h⟩
  · -- CancelPending
    have hor : e.status = OrderStatus.Invalid ∨ e.status = OrderStatus.CancelPending ∨
        e.status = OrderStatus.Error := Or.inr (Or.inl hst)
    by_cases hc : o.type = OrderType.Market ∧ ¬ env.portfolio.Invested
    · rw [onOrderEvent_error env s o e hor]
      simp only []
      rw [if_pos hc]
      rw [onOrderEvent_error env (ResetTradeTracking s) o e hor]
      simp only []
      rw [if_pos hc]
      exact ⟨rfl, by simp⟩
    · rw [onOrderEvent_error env s o e hor]
      simp only []
      rw [if_neg hc]
      rw [onOrderEvent_error env s o e hor]
      simp only []
      rw [if_neg hc]
      exact ⟨rfl, by simp⟩
  · -- Invalid
    have hor : e.status = OrderStatus.Invalid ∨ e.status = OrderStatus.CancelPending ∨
        e.status = OrderStatus.Error := Or.inl hst
    by_cases hc : o.type = OrderType.Market ∧ ¬ env.portfolio.Invested
    · rw [onOrderEvent_error env s o e hor]
      simp only []
      rw [if_pos hc]
      rw [onOrderEvent_error env (ResetTradeTracking s) o e hor]
      simp only []
      rw [if_pos hc]
      exact ⟨rfl, by simp⟩
    · rw [onOrderEvent_error env s o e hor]
      simp only []
      rw [if_neg hc]
      rw [onOrderEvent_error env s o e hor]
      simp only []
      rw [if_neg hc]
      exact ⟨rfl, by simp⟩
  · -- Error
    have hor : e.status = OrderStatus.Invalid ∨ e.status = OrderStatus.CancelPending ∨
        e.status = OrderStatus.Error := Or.inr (Or.inr hst)
    by_cases hc : o.type = OrderType.Market ∧ ¬ env.portfolio.Invested
    · rw [onOrderEvent_error env s o e hor]
      simp only []
      rw [if_pos hc]
      rw [onOrderEvent_error env (ResetTradeTracking s) o e hor]
      simp only []
      rw [if_pos hc]
      exact ⟨rfl, by simp⟩
    · rw [onOrderEvent_error env s o e hor]
      simp only []
      rw [if_neg hc]
      rw [onOrderEvent_error env s o e hor]
      simp only []
      rw [if_neg hc]
      exact ⟨rfl, by simp⟩

end MeanReversionSpyRsiKr

namespace MeanReversionSpyRsiKr

/-- Witness for C8: a duplicate stop-fill event (order id 61) delivered
twice against a bracketed state (stop 61, target 62) converges: the
second delivery leaves the reset state untouched and emits nothing new. -/
theorem C8_idempotence_witness :
    (OnOrderEvent ⟨⟨10⟩, true, 2, some ⟨63, OrderStatus.Submitted⟩,
        some ⟨64, OrderStatus.Submitted⟩⟩
      (OnOrderEvent ⟨⟨10⟩, true, 2, some ⟨63, OrderStatus.Submitted⟩,
          some ⟨64, OrderStatus.Submitted⟩⟩
        ⟨100, some ⟨61, OrderStatus.Submitted⟩, some ⟨62, OrderStatus.Submitted⟩⟩
        ⟨Sym.SPY, OrderType.StopMarket, OrderDirection.Sell⟩
        ⟨61, OrderStatus.Filled, 97, 10⟩).1
      ⟨Sym.SPY, OrderType.StopMarket, OrderDirection.Sell⟩
      ⟨61, OrderStatus.Filled, 97, 10⟩).1 =
    (OnOrderEvent ⟨⟨10⟩, true, 2, some ⟨63, OrderStatus.Submitted⟩,
        some ⟨64, OrderStatus.Submitted⟩⟩
      ⟨100, some ⟨61, OrderStatus.Submitted⟩, some ⟨62, OrderStatus.Submitted⟩⟩
      ⟨Sym.SPY, OrderType.StopMarket, OrderDirection.Sell⟩
      ⟨61, OrderStatus.Filled, 97, 10⟩).1 ∧
    (∀ eff ∈ (OnOrderEvent ⟨⟨10⟩, true, 2, some ⟨63, OrderStatus.Submitted⟩,
          some ⟨64, OrderStatus.Submitted⟩⟩
        (OnOrderEvent ⟨⟨10⟩, true, 2, some ⟨63, OrderStatus.Submitted⟩,
            some ⟨64, OrderStatus.Submitted⟩⟩
          ⟨100, some ⟨61, OrderStatus.Submitted⟩, some ⟨62, OrderStatus.Submitted⟩⟩
          ⟨Sym.SPY, OrderType.StopMarket, OrderDirection.Sell⟩
          ⟨61, OrderStatus.Filled, 97, 10⟩).1
        ⟨Sym.SPY, OrderType.StopMarket, OrderDirection.Sell⟩
        ⟨61, OrderStatus.Filled, 97, 10⟩).2,
      eff ∈ (OnOrderEvent ⟨⟨10⟩, true, 2, some ⟨63, OrderStatus.Submitted⟩,
          some ⟨64, OrderStatus.Submitted⟩⟩
        ⟨100, some ⟨61, OrderStatus.Submitted⟩, some ⟨62, OrderStatus.Submitted⟩⟩
        ⟨Sym.SPY, OrderType.StopMarket, OrderDirection.Sell⟩
        ⟨61, OrderStatus.Filled, 97, 10⟩).2) :=
  C8_idempotence
    ⟨⟨10⟩, true, 2, some ⟨63, OrderStatus.Submitted⟩, some ⟨64, OrderStatus.Submitted⟩⟩
    ⟨100, some ⟨61, OrderStatus.Submitted⟩, some ⟨62, OrderStatus.Submitted⟩⟩
    ⟨Sym.SPY, OrderType.StopMarket, OrderDirection.Sell⟩
    ⟨61, OrderStatus.Filled, 97, 10⟩
    (by intro t1 t2 h1 h2; injection h1 with h1; injection h2 with h2;
        subst h1; subst h2; decide)
    (by intro t h; injection h with h; subst h; decide)
    (by intro t h; injection h with h; subst h; decide)
    (fun _ _ _ => by decide)
    (fun _ _ _ => by decide)

end MeanReversionSpyRsiKr
